import Mathlib

/-!
Verification of the Archon reliability layer: the provider error
normalization adapters (`provider_error_adapters.py`), the HTTP error
mapper, the progress tracker and its polling endpoint
(`progress_api.py`), and the crawl file-discovery configuration loader
(`file_discovery.py`).  Python strings are embedded as `List Char`
(for the character-level sanitizers) or `String` (for the tracker and
API layer); Python regular-expression substitutions are embedded as
explicit left-to-right scanners with the same match semantics as the
concrete patterns used in the source.
-/

/-- Python whitespace, as used by `str.split()`, `str.strip()` and the
regex class `\s`. -/
def pyIsSpace (c : Char) : Bool :=
  c == ' ' || c == '\t' || c == '\n' || c == '\r' || c == '\x0b' || c == '\x0c'

/-- ASCII lower-casing of a character list, embedding `str.lower()` on the
ASCII fragment that the adapters' markers use. -/
def lowerL (cs : List Char) : List Char :=
  cs.map Char.toLower

/-- Python substring test `needle in hay`. -/
def strContains (hay needle : List Char) : Bool :=
  match hay with
  | [] => needle.isEmpty
  | _ :: t => if needle.isPrefixOf hay then true else strContains t needle

/-- Case-insensitive literal prefix test, for `re.IGNORECASE` literals. -/
def ciIsPrefixOf : List Char → List Char → Bool
  | [], _ => true
  | _ :: _, [] => false
  | a :: as, b :: bs => (a.toLower == b.toLower) && ciIsPrefixOf as bs

/-- Accumulator for `pySplit`. -/
def pySplitAux : List Char → List Char → List (List Char)
  | [], acc => if acc.isEmpty then [] else [acc.reverse]
  | c :: t, acc =>
    if pyIsSpace c then
      if acc.isEmpty then pySplitAux t [] else acc.reverse :: pySplitAux t []
    else pySplitAux t (c :: acc)

/-- Python `str.split()` with no argument: split on runs of whitespace,
discarding empty pieces. -/
def pySplit (cs : List Char) : List (List Char) :=
  pySplitAux cs []

/-- Python `' '.join(words)`. -/
def joinSpace : List (List Char) → List Char
  | [] => []
  | [w] => w
  | w :: ws => w ++ ' ' :: joinSpace ws

/-- The ASCII class `[a-zA-Z0-9]`. -/
def isAlnum (c : Char) : Bool :=
  c.isAlpha || c.isDigit

/-- Python `int(...)` on a non-empty digit string. -/
def natOfDigits (ds : List Char) : Nat :=
  ds.foldl (fun a c => 10 * a + (c.toNat - '0'.toNat)) 0

/-- One pass of `re.sub`: at each position try the matcher, which on
success yields the replacement text and the remainder after the match
(every matcher below consumes at least one character); on failure copy one
character and continue.  This is exactly the leftmost, non-overlapping,
no-rescan semantics of `re.sub`.  Fuel is the input length, which bounds
the number of steps. -/
def applySubAux (m : List Char → Option (List Char × List Char)) :
    Nat → List Char → List Char
  | 0, cs => cs
  | _ + 1, [] => []
  | fuel + 1, c :: t =>
    match m (c :: t) with
    | some (rep, rest) => rep ++ applySubAux m fuel rest
    | none => c :: applySubAux m fuel t

/-- Embedding of `re.sub(pattern, replacement, s)` for a matcher embedding the pattern. -/
def applySub (m : List Char → Option (List Char × List Char))
    (cs : List Char) : List Char :=
  applySubAux m cs.length cs

/-- Host characters of the URL patterns: `[a-zA-Z0-9.-]`. -/
def urlHostChar (c : Char) : Bool :=
  isAlnum c || c == '.' || c == '-'

/-- Matcher for `https?://[a-zA-Z0-9.-]+/[^\s]*` (IGNORECASE), the OpenAI
adapter's URL pattern.  The optional `s` needs no backtracking: none of the
following literal `://` characters can double as the `s`. -/
def matchUrl (cs : List Char) : Option (List Char × List Char) :=
  if ciIsPrefixOf (("http").data) cs then
    let r0 := cs.drop 4
    let r1 := if ciIsPrefixOf (("s").data) r0 then r0.drop 1 else r0
    if (("://").data).isPrefixOf r1 then
      let r2 := r1.drop 3
      let host := r2.takeWhile urlHostChar
      if host.isEmpty then none
      else
        match r2.dropWhile urlHostChar with
        | '/' :: r3 =>
          some ((("[REDACTED_URL]").data),
                r3.dropWhile (fun c => !(pyIsSpace c)))
        | _ => none
    else none
  else none

/-- Matcher for a case-insensitive literal followed by a greedy run of
`lo` to `hi` characters of `[a-zA-Z0-9]`, embedding the `org-`, `proj_`
and `req_` identifier patterns. -/
def matchTag (lit : List Char) (lo hi : Nat) (rep : List Char)
    (cs : List Char) : Option (List Char × List Char) :=
  if ciIsPrefixOf lit cs then
    let r := cs.drop lit.length
    let run := r.takeWhile isAlnum
    let k := min run.length hi
    if lo ≤ k then some (rep, r.drop k) else none
  else none

/-- Matcher for `org-[a-zA-Z0-9]{24}` (IGNORECASE). -/
def matchOrg (cs : List Char) : Option (List Char × List Char) :=
  matchTag (("org-").data) 24 24 (("[REDACTED_ORG]").data) cs

/-- Matcher for `proj_[a-zA-Z0-9]{10,15}` (IGNORECASE). -/
def matchProj (cs : List Char) : Option (List Char × List Char) :=
  matchTag (("proj_").data) 10 15 (("[REDACTED_PROJ]").data) cs

/-- Matcher for `req_[a-zA-Z0-9]{6,15}` (IGNORECASE). -/
def matchReq (cs : List Char) : Option (List Char × List Char) :=
  matchTag (("req_").data) 6 15 (("[REDACTED_REQ]").data) cs

/-- The class `[a-zA-Z0-9._-]` of the bearer pattern. -/
def bearerChar (c : Char) : Bool :=
  isAlnum c || c == '.' || c == '_' || c == '-'

/-- Matcher for `Bearer [a-zA-Z0-9._-]+` (IGNORECASE), replaced by
`Bearer [REDACTED_AUTH_TOKEN]`. -/
def matchBearer (cs : List Char) : Option (List Char × List Char) :=
  if ciIsPrefixOf (("bearer ").data) cs then
    let r := cs.drop 7
    let run := r.takeWhile bearerChar
    if run.isEmpty then none
    else some ((("Bearer [REDACTED_AUTH_TOKEN]").data), r.drop run.length)
  else none

/-- The OpenAI adapter's fixed generic fallback message. -/
def openaiFallback : List Char :=
  ("OpenAI API encountered an error. Please verify your API key and quota.").data

/-- The token-level replacement of `OpenAIErrorAdapter.sanitize_error_message`:
a whitespace-delimited word starting with `sk-` of total length 51
(`sk-` + exactly 48 characters) becomes the redaction placeholder. -/
def openaiRedactWord (w : List Char) : List Char :=
  if (("sk-").data).isPrefixOf w && w.length == 51 then
    ("[REDACTED_KEY]").data
  else w

/-- The key-redaction pass: guarded by `'sk-' in sanitized`, split on
whitespace, replace key-shaped words, rejoin with single spaces. -/
def openaiKeyPass (s : List Char) : List Char :=
  if strContains s (("sk-").data) then
    joinSpace ((pySplit s).map openaiRedactWord)
  else s

/-- The five regex substitutions of the OpenAI adapter, applied in source
order: URL, organization id, project id, request id, bearer token. -/
def openaiRegexPasses (s : List Char) : List Char :=
  applySub matchBearer
    (applySub matchReq
      (applySub matchProj
        (applySub matchOrg
          (applySub matchUrl s))))

/-- All redaction passes of the OpenAI adapter, key pass first. -/
def openaiRedact (s : List Char) : List Char :=
  openaiRegexPasses (openaiKeyPass s)

/-- The denylist built by the OpenAI adapter after redaction:
`internal`, `server`, `token`, plus `endpoint` when the (lower-cased)
message mentions it and no `[REDACTED_URL]` placeholder is present. -/
def openaiSensitiveWords (s : List Char) : List (List Char) :=
  let base := [("internal").data, ("server").data, ("token").data]
  if strContains (lowerL s) (("endpoint").data)
      && !(strContains s (("[REDACTED_URL]").data)) then
    base ++ [("endpoint").data]
  else base

/-- The check `any(word in sanitized.lower() for word in sensitive_words)`. -/
def hasSensitive (s : List Char) : Bool :=
  (openaiSensitiveWords s).any (fun w => strContains (lowerL s) w)

/-- Embedding of `OpenAIErrorAdapter.sanitize_error_message`.  The `isinstance` check is
outside the typed embedding; the falsy-`strip()` check is `all pyIsSpace`
(true on the empty message as well). -/
def openaiSanitize (s : List Char) : List Char :=
  if s.all pyIsSpace then openaiFallback
  else if 2000 < s.length then openaiFallback
  else
    if hasSensitive (openaiRedact s) then openaiFallback
    else openaiRedact s

/-- Backtracking search for the largest `k ≤ bound` such that the
case-insensitive literal `lit` matches at offset `k` of `cs`, embedding the
greedy `[a-zA-Z0-9.-]*` before a literal domain in the Google and Anthropic
URL patterns. -/
def findLastLitPos (lit : List Char) (cs : List Char) : Nat → Option Nat
  | 0 => if ciIsPrefixOf lit cs then some 0 else none
  | k + 1 =>
    if ciIsPrefixOf lit (cs.drop (k + 1)) then some (k + 1)
    else findLastLitPos lit cs k

/-- Matcher for `https?://[a-zA-Z0-9.-]*LIT[^\s]*` (IGNORECASE) where `LIT`
is a literal domain such as `googleapis.com`: greedy host characters with
backtracking to the latest position where the literal matches, then greedy
non-whitespace. -/
def matchDomainUrl (lit : List Char) (cs : List Char) :
    Option (List Char × List Char) :=
  if ciIsPrefixOf (("http").data) cs then
    let r0 := cs.drop 4
    let r1 := if ciIsPrefixOf (("s").data) r0 then r0.drop 1 else r0
    if (("://").data).isPrefixOf r1 then
      let r2 := r1.drop 3
      let run := r2.takeWhile urlHostChar
      match findLastLitPos lit r2 run.length with
      | none => none
      | some k =>
        let r3 := (r2.drop k).drop lit.length
        some ((("[REDACTED_URL]").data), r3.dropWhile (fun c => !(pyIsSpace c)))
    else none
  else none

/-- The class `[a-zA-Z0-9_-]` of Google's `projects/` pattern. -/
def projectsChar (c : Char) : Bool :=
  isAlnum c || c == '_' || c == '-'

/-- Matcher for `projects/[a-zA-Z0-9_-]+` (IGNORECASE), replaced by
`projects/[REDACTED_PROJECT]`. -/
def matchProjects (cs : List Char) : Option (List Char × List Char) :=
  if ciIsPrefixOf (("projects/").data) cs then
    let r := cs.drop 9
    let run := r.takeWhile projectsChar
    if run.isEmpty then none
    else some ((("projects/[REDACTED_PROJECT]").data), r.drop run.length)
  else none

/-- The Google adapter's fixed generic fallback message. -/
def googleFallback : List Char :=
  ("Google AI API encountered an error. Please verify your API key and quota.").data

/-- Google key words: `AIza` prefix with total length 39 (`AIza` + 35). -/
def googleRedactWord (w : List Char) : List Char :=
  if (("AIza").data).isPrefixOf w && w.length == 39 then
    ("[REDACTED_KEY]").data
  else w

/-- Google key-redaction pass, guarded by `'AIza' in sanitized`. -/
def googleKeyPass (s : List Char) : List Char :=
  if strContains s (("AIza").data) then
    joinSpace ((pySplit s).map googleRedactWord)
  else s

/-- Google regex substitutions in source order: googleapis URL,
`projects/` identifier, bearer token. -/
def googleRegexPasses (s : List Char) : List Char :=
  applySub matchBearer
    (applySub matchProjects
      (applySub (matchDomainUrl (("googleapis.com").data)) s))

/-- Google denylist check: `internal`, `server`, `token`, `project`. -/
def googleHasSensitive (s : List Char) : Bool :=
  [("internal").data, ("server").data, ("token").data, ("project").data].any
    (fun w => strContains (lowerL s) w)

/-- Embedding of `GoogleAIErrorAdapter.sanitize_error_message`. -/
def googleSanitize (s : List Char) : List Char :=
  if s.all pyIsSpace then googleFallback
  else if 2000 < s.length then googleFallback
  else
    let r := googleRegexPasses (googleKeyPass s)
    if googleHasSensitive r then googleFallback else r

/-- The Anthropic adapter's fixed generic fallback message. -/
def anthropicFallback : List Char :=
  ("Anthropic API encountered an error. Please verify your API key.").data

/-- Anthropic key words: `sk-ant-` prefix with total length above 20. -/
def anthropicRedactWord (w : List Char) : List Char :=
  if (("sk-ant-").data).isPrefixOf w && 20 < w.length then
    ("[REDACTED_KEY]").data
  else w

/-- Anthropic key-redaction pass, guarded by `'sk-ant-' in sanitized`. -/
def anthropicKeyPass (s : List Char) : List Char :=
  if strContains s (("sk-ant-").data) then
    joinSpace ((pySplit s).map anthropicRedactWord)
  else s

/-- Anthropic regex substitutions: anthropic.com URL, bearer token. -/
def anthropicRegexPasses (s : List Char) : List Char :=
  applySub matchBearer
    (applySub (matchDomainUrl (("anthropic.com").data)) s)

/-- Anthropic denylist check: `internal`, `server`, `token`. -/
def anthropicHasSensitive (s : List Char) : Bool :=
  [("internal").data, ("server").data, ("token").data].any
    (fun w => strContains (lowerL s) w)

/-- Embedding of `AnthropicErrorAdapter.sanitize_error_message`. -/
def anthropicSanitize (s : List Char) : List Char :=
  if s.all pyIsSpace then anthropicFallback
  else if 2000 < s.length then anthropicFallback
  else
    let r := anthropicRegexPasses (anthropicKeyPass s)
    if anthropicHasSensitive r then anthropicFallback else r

/-- The Ollama adapter's fixed generic fallback message. -/
def ollamaFallback : List Char :=
  ("Ollama service encountered an error. Please check your Ollama configuration.").data

/-- Matcher for `http://localhost:\d+` (IGNORECASE). -/
def matchLocalhost (cs : List Char) : Option (List Char × List Char) :=
  if ciIsPrefixOf (("http://localhost:").data) cs then
    let r := cs.drop 17
    let run := r.takeWhile Char.isDigit
    if run.isEmpty then none
    else some ((("[REDACTED_LOCAL_URL]").data), r.drop run.length)
  else none

/-- The class `[a-zA-Z0-9/_.-]` of the Ollama local path pattern. -/
def pathChar (c : Char) : Bool :=
  isAlnum c || c == '/' || c == '_' || c == '.' || c == '-'

/-- Matcher for `/[a-zA-Z0-9/_.-]+`. -/
def matchPath (cs : List Char) : Option (List Char × List Char) :=
  match cs with
  | '/' :: r =>
    let run := r.takeWhile pathChar
    if run.isEmpty then none
    else some ((("[REDACTED_PATH]").data), r.drop run.length)
  | _ => none

/-- Embedding of `OllamaErrorAdapter.sanitize_error_message`: note that, unlike the
other three adapters, it has no length guard and no denylist guard. -/
def ollamaSanitize (s : List Char) : List Char :=
  if s.all pyIsSpace then ollamaFallback
  else applySub matchPath (applySub matchLocalhost s)

/-- The normalized provider error taxonomy of `embedding_exceptions`:
authentication, quota exhaustion, rate limiting, generic API error, with
their structured fields (key prefix, token count, retry hint). -/
inductive EmbeddingError where
  | authenticationError (message : List Char) (keyPref : Option (List Char))
  | quotaExhaustedError (message : List Char) (tokensUsed : Option Nat)
  | rateLimitError (message : List Char) (retryAfter : Option Nat)
  | apiError (message : List Char)
deriving DecidableEq

/-- Discriminator for the authentication kind. -/
def isAuthError : EmbeddingError → Bool
  | .authenticationError _ _ => true
  | _ => false

/-- Discriminator for the quota kind. -/
def isQuotaError : EmbeddingError → Bool
  | .quotaExhaustedError _ _ => true
  | _ => false

/-- Discriminator for the rate-limit kind. -/
def isRateError : EmbeddingError → Bool
  | .rateLimitError _ _ => true
  | _ => false

/-- The OpenAI authentication marker: `"401" in s` and (`"invalid"` or
`"incorrect"` in `s.lower()`). -/
def openaiAuthCond (s : List Char) : Bool :=
  strContains s (("401").data)
    && (strContains (lowerL s) (("invalid").data)
        || strContains (lowerL s) (("incorrect").data))

/-- The OpenAI quota marker: `quota`, `billing` or `credits` in `s.lower()`. -/
def openaiQuotaCond (s : List Char) : Bool :=
  strContains (lowerL s) (("quota").data)
    || strContains (lowerL s) (("billing").data)
    || strContains (lowerL s) (("credits").data)

/-- The OpenAI rate-limit marker: `rate` and `limit` in `s.lower()`. -/
def openaiRateCond (s : List Char) : Bool :=
  strContains (lowerL s) (("rate").data)
    && strContains (lowerL s) (("limit").data)

/-- Embedding of the search `sk-` + three alphanumerics: earliest position where `sk-`
is followed by three alphanumerics; yields the `sk-XXX…` display prefix. -/
def findSkPref : List Char → Option (List Char)
  | [] => none
  | c :: t =>
    let k3 := ((c :: t).drop 3).take 3
    if (("sk-").data).isPrefixOf (c :: t) && k3.length == 3 && k3.all isAlnum then
      some ((("sk-").data) ++ k3 ++ [('…')])
    else findSkPref t

/-- Key-prefix extraction of the OpenAI auth branch, guarded by
`'sk-' in error_str`. -/
def openaiKeyPrefOf (s : List Char) : Option (List Char) :=
  if strContains s (("sk-").data) then findSkPref s else none

/-- One attempt of `re.search(r'(\d+)\s*tokens?', s, re.IGNORECASE)` at a
fixed start position: a greedy digit run, optional whitespace, then the
case-insensitive literal `token` (the trailing `s?` is irrelevant to
search success). -/
def tryTokensAt (cs : List Char) : Option Nat :=
  let ds := cs.takeWhile Char.isDigit
  if ds.isEmpty then none
  else
    let r2 := (cs.dropWhile Char.isDigit).dropWhile pyIsSpace
    if ciIsPrefixOf (("token").data) r2 then some (natOfDigits ds) else none

/-- Leftmost-position search for the token-count pattern. -/
def findTokensUsed : List Char → Option Nat
  | [] => none
  | c :: t =>
    match tryTokensAt (c :: t) with
    | some n => some n
    | none => findTokensUsed t

/-- Embedding of `OpenAIErrorAdapter.parse_error` on the error's string form: the
if/elif priority chain — authentication, then quota, then rate limit, then
the generic API error wrapping the original message. -/
def openaiParseError (s : List Char) : EmbeddingError :=
  if openaiAuthCond s then
    .authenticationError (("Invalid OpenAI API key").data) (openaiKeyPrefOf s)
  else if openaiQuotaCond s then
    .quotaExhaustedError (("OpenAI quota exhausted").data) (findTokensUsed s)
  else if openaiRateCond s then
    .rateLimitError (("OpenAI rate limit exceeded").data) none
  else
    .apiError ((("OpenAI API error: ").data) ++ s)

/-- Structured body of a provider-error HTTP response, carrying the fields
the mapper sets: transport status, machine-readable error type, human
message, and the optional key prefix / token count / retry hint. -/
structure HttpErrorBody where
  status : Nat
  errorType : List Char
  message : List Char
  keyPref : Option (List Char)
  tokensUsed : Option Nat
  retryAfter : Option Nat
deriving DecidableEq

/-- Modelled from the spec: the HTTP error mapper of the RAG endpoint
(`knowledge_api.perform_rag_query`), whose source is absent here (only its
tests are).  Per spec section 4.2: AuthenticationError maps to 401 with
`authentication_failed` and the redacted key prefix; QuotaExhaustedError to
429 with `quota_exhausted` and `tokens_used` if known; RateLimitError to
429 with `rate_limit` and a `retry_after` hint defaulting to 30 seconds
when the provider supplied none; a generic API error to 502 with
`api_error` and the sanitized message. -/
def mapProviderError : EmbeddingError → HttpErrorBody
  | .authenticationError _ p =>
    { status := 401, errorType := ("authentication_failed").data,
      message := ("OpenAI authentication failed: API key is invalid or expired.").data,
      keyPref := p, tokensUsed := none, retryAfter := none }
  | .quotaExhaustedError _ t =>
    { status := 429, errorType := ("quota_exhausted").data,
      message := ("OpenAI quota exhausted. Please add credits to your account.").data,
      keyPref := none, tokensUsed := t, retryAfter := none }
  | .rateLimitError _ r =>
    { status := 429, errorType := ("rate_limit").data,
      message := ("OpenAI rate limit: too many requests. Please retry later.").data,
      keyPref := none, tokensUsed := none, retryAfter := some (r.getD 30) }
  | .apiError m =>
    { status := 502, errorType := ("api_error").data,
      message := openaiSanitize m,
      keyPref := none, tokensUsed := none, retryAfter := none }

/-- An operation record of the progress tracker, with the fields the spec
fixes in section 3: type tag, status, percentage, current step, the
bounded log list, the optional error string, the scalar `log` field the
terminal paths set, and the caller-supplied metadata.  Wall-clock fields
(`start_time`, `duration`, timestamps) are outside the model. -/
structure Operation where
  opType : String
  status : String
  percentage : Nat
  step : String
  logs : List String
  errMsg : Option String
  lastLog : Option String
  meta : List (String × String)
deriving DecidableEq

/-- A partial update for `update(id, partialFields)`: absent fields are
left unchanged, present fields are last-write-wins. -/
structure OpUpdate where
  status : Option String := none
  percentage : Option Nat := none
  step : Option String := none
  log : Option String := none
  errMsg : Option String := none
  meta : List (String × String) := []
deriving DecidableEq

/-- The 50-entry sliding-window cap on logs: when over the cap, drop from
the front, keeping the most recent 50. -/
def capLogs (ls : List String) : List String :=
  if 50 < ls.length then ls.drop (ls.length - 50) else ls

/-- Merge metadata key/value pairs, last-write-wins per key. -/
def mergeMeta (old new : List (String × String)) : List (String × String) :=
  new ++ old.filter (fun p => !(new.any (fun q => q.1 == p.1)))

/-- Modelled from the spec: the field merge of
`ProgressService.update_progress` (the service source is absent here, only
its tests are).  Merges present fields; a `log` field is appended to
`logs` under the 50-entry cap and also retained as the scalar `log` key. -/
def applyUpdate (op : Operation) (u : OpUpdate) : Operation :=
  { opType := op.opType,
    status := u.status.getD op.status,
    percentage := u.percentage.getD op.percentage,
    step := u.step.getD op.step,
    logs := match u.log with
      | some l => capLogs (op.logs ++ [l])
      | none => op.logs,
    errMsg := match u.errMsg with
      | some e => some e
      | none => op.errMsg,
    lastLog := match u.log with
      | some l => some l
      | none => op.lastLog,
    meta := mergeMeta op.meta u.meta }

/-- The tracker registry: operation id to record, one live record per id. -/
abbrev Registry : Type := List (String × Operation)

/-- Registry lookup, `getStatus(id)`. -/
def regGet (reg : Registry) (id : String) : Option Operation :=
  match reg with
  | [] => none
  | p :: t => if p.1 == id then some p.2 else regGet t id

/-- Modelled from the spec: `ProgressService.start_operation` — creates or
overwrites the record in `starting` state, percentage 0, step
`initialization`, logs seeded with one `Starting {type}` entry, metadata
merged in. -/
def startOp (reg : Registry) (id ty : String)
    (meta : List (String × String)) : Registry :=
  (id,
    { opType := ty, status := ("starting"), percentage := 0,
      step := ("initialization"), logs := [("Starting ") ++ ty],
      errMsg := none, lastLog := none, meta := meta })
    :: reg.filter (fun p => !(p.1 == id))

/-- Modelled from the spec: `ProgressService.update_progress` — a no-op
(not an error) when the id is unknown, otherwise the field merge above. -/
def updateOp (reg : Registry) (id : String) (u : OpUpdate) : Registry :=
  match regGet reg id with
  | none => reg
  | some _ =>
    reg.map (fun p => if p.1 == id then (p.1, applyUpdate p.2 u) else p)

/-- Modelled from the spec: `ProgressService.complete_operation` — status
`completed`, percentage 100, step `finished`, result metadata merged, a
completion log line appended; the scheduled 30-second grace-delay removal
is a wall-clock effect outside the model. -/
def completeOp (reg : Registry) (id : String)
    (meta : List (String × String)) : Registry :=
  updateOp reg id
    { status := some ("completed"), percentage := some 100,
      step := some ("finished"),
      log := some ("Operation completed successfully"), meta := meta }

/-- Modelled from the spec: `ProgressService.error_operation` — status
`error`, step `failed`, the `error` field set to the message, and the
scalar `log` field set to a formatted failure line (the `logs` list is not
appended to on this path). -/
def errorOp (reg : Registry) (id : String) (msg : String) : Registry :=
  match regGet reg id with
  | none => reg
  | some _ =>
    reg.map (fun p =>
      if p.1 == id then
        (p.1,
          { p.2 with
            status := ("error"), step := ("failed"),
            errMsg := some msg, lastLog := some (("Error: ") ++ msg) })
      else p)

/-- A tracker mutation, for quantifying over operation histories. -/
inductive TrackerAction where
  | start (id ty : String) (meta : List (String × String))
  | update (id : String) (u : OpUpdate)
  | complete (id : String) (meta : List (String × String))
  | error (id : String) (msg : String)

/-- Interpret one tracker action on a registry. -/
def applyAction (reg : Registry) : TrackerAction → Registry
  | .start id ty meta => startOp reg id ty meta
  | .update id u => updateOp reg id u
  | .complete id meta => completeOp reg id meta
  | .error id msg => errorOp reg id msg

/-- Interpret a history of tracker actions, oldest first. -/
def applyActions (reg : Registry) (acts : List TrackerAction) : Registry :=
  acts.foldl applyAction reg

/-- Every record in the registry has at most 50 log entries. -/
def logsBounded (reg : Registry) : Prop :=
  ∀ p ∈ reg, p.2.logs.length ≤ 50

/-- The response body built by `get_progress` in `progress_api.py`,
excluding the volatile `timestamp` field: id, status, percentage, the
`step` as `message`, the full record as `metadata`, and `error` populated
only when the status is exactly `failed`. -/
structure ProgressBody where
  operationId : String
  status : String
  percentage : Nat
  message : String
  metadata : Operation
  errMsg : Option String
deriving DecidableEq

/-- The body construction of `get_progress` (lines 43-51 of
`progress_api.py`): `error` is `operation.get("error")` if the status is
`failed`, else `None`. -/
def buildProgressBody (id : String) (op : Operation) : ProgressBody :=
  { operationId := id, status := op.status, percentage := op.percentage,
    message := op.step, metadata := op,
    errMsg := if op.status == "failed" then op.errMsg else none }

/-- Modelled from the spec: `generate_etag` of `etag_utils` (absent here)
is "a stable hash" computed over the response body excluding the timestamp
field; it is modelled as a collision-free fingerprint, namely the stable
body itself, which keeps it a deterministic function of exactly that
data. -/
def generateEtag (id : String) (op : Operation) : ProgressBody :=
  buildProgressBody id op

/-- Modelled from the spec: `check_etag` of `etag_utils` (absent here) —
the client fingerprint from `If-None-Match` matches iff it equals the
current fingerprint. -/
def checkEtag (inm : Option ProgressBody) (cur : ProgressBody) : Bool :=
  match inm with
  | some t => t == cur
  | none => false

/-- Outcome of `GET /progress/{id}`: 404, 304 with empty body, or 200 with
the body, the fingerprint for the `ETag` header, and the `X-Poll-Interval`
hint. -/
inductive ProgressResult where
  | notFound
  | notModified
  | ok (body : ProgressBody) (etag : ProgressBody) (pollInterval : String)
deriving DecidableEq

/-- Embedding of `get_progress` of `progress_api.py` on a looked-up record: 404 when
absent; otherwise build the body, compare fingerprints, answer 304 with an
empty body on a match, else 200 with the fingerprint and the poll hint
(`1000` when running, `0` otherwise). -/
def getProgress (id : String) (lookup : Option Operation)
    (inm : Option ProgressBody) : ProgressResult :=
  match lookup with
  | none => .notFound
  | some op =>
    let body := buildProgressBody id op
    if checkEtag inm body then .notModified
    else .ok body (generateEtag id op)
      (if op.status == "running" then ("1000") else ("0"))

/-- A Python/JSON value as handled by `_get_file_list_from_db`: strings,
lists, dicts, numbers, booleans and `None`. -/
inductive PyValue where
  | pyStr (s : String)
  | pyList (xs : List PyValue)
  | pyDict (kvs : List (String × PyValue))
  | pyInt (n : Int)
  | pyBool (b : Bool)
  | pyNone

/-- The hardcoded `_fallback_defaults` table of `FileDiscoveryService`,
with the empty list for keys outside the table (`.get(setting_key, [])`). -/
def fallbackFor (key : String) : List String :=
  if key == "CRAWL_DISCOVERY_LLM_FILES" then
    [("llms-full.txt"), ("llms-ctx.txt"), ("llms.md"), ("llms.txt")]
  else if key == "CRAWL_DISCOVERY_SITEMAP_FILES" then
    [("sitemap.xml"), ("sitemap_index.xml"), ("sitemap-*.xml")]
  else if key == "CRAWL_DISCOVERY_METADATA_FILES" then
    [("robots.txt"), (".well-known/security.txt"), (".well-known/humans.txt"),
     ("humans.txt"), ("security.txt")]
  else []

/-- The fallback list as returned values. -/
def fallbackValues (key : String) : List PyValue :=
  (fallbackFor key).map PyValue.pyStr

/-- Python dict lookup `kvs['value']`-style, first binding wins. -/
def dictLookup (kvs : List (String × PyValue)) (k : String) : Option PyValue :=
  match kvs with
  | [] => none
  | p :: t => if p.1 == k then some p.2 else dictLookup t k

/-- Embedding of `FileDiscoveryService._get_file_list_from_db`, with the credential
store's answer passed in as `raw` and `json.loads` passed in as `parse`
(`none` standing for a `JSONDecodeError`).  A string is parsed; a dict
with a `value` key has that value parsed when it is a string (and raises
`TypeError`, hence falls back, otherwise); anything else is taken as is;
a final result that is not a list falls back.  Every exception path of the
source is caught and mapped to the fallback, so the embedding is a total
function: no error escapes. -/
def getFileListFromDb (parse : String → Option PyValue)
    (raw : Option PyValue) (key : String) : List PyValue :=
  match raw with
  | none => fallbackValues key
  | some v =>
    let parsed : Option PyValue :=
      match v with
      | .pyStr s => parse s
      | .pyDict kvs =>
        match dictLookup kvs ("value") with
        | some (.pyStr s) => parse s
        | some _ => none
        | none => some (.pyDict kvs)
      | other => some other
    match parsed with
    | some (.pyList xs) => xs
    | some _ => fallbackValues key
    | none => fallbackValues key

/-- A well-formed OpenAI-style key: `sk-` followed by 48 characters. -/
def cexKey : List Char :=
  ("sk-").data ++ List.replicate 48 'a'

/-- A message carrying the key both as a standalone whitespace token and
embedded inside a larger token. -/
def cexMsg : List Char :=
  cexKey ++ (" X").data ++ cexKey

/-- A 2001-character message for the Ollama length-guard counterexample. -/
def longOllamaMsg : List Char :=
  List.replicate 2001 'a'

/-- A benign model-name message for the sanitization round-trip. -/
def benignMsg : List Char :=
  ("Model not found: text-embedding-ada-002").data

/-- The classification-priority sample: authentication and quota markers
co-occurring. -/
def authQuotaMsg : List Char :=
  ("401 invalid api key quota exceeded").data

/-- The sanitization-fallback sample: `internal` and `endpoint`, no URL. -/
def internalEndpointMsg : List Char :=
  ("internal endpoint failure").data

/-- The tracker history of the log-cap scenario: one start, then sixty
log-bearing updates numbered 0 to 59. -/
def c8Actions : List TrackerAction :=
  TrackerAction.start ("op-1") ("test") []
    :: (List.range 60).map (fun i =>
        TrackerAction.update ("op-1") { log := some (("Log entry ") ++ toString i) })

/-- The registry after the log-cap scenario. -/
def c8FinalReg : Registry :=
  applyActions [] c8Actions

/-- The record produced by starting an operation and then marking it
failed through the tracker's error path. -/
def c9Reg : Registry :=
  errorOp (startOp [] ("op-9") ("crawl") []) ("op-9") ("boom")

/-- That record, spelled out. -/
def c9Op : Operation :=
  { opType := ("crawl"), status := ("error"), percentage := 0,
    step := ("failed"), logs := [("Starting crawl")],
    errMsg := some ("boom"), lastLog := some ("Error: boom"), meta := [] }

/-- A running operation for the ETag witnesses. -/
def c6Op : Operation :=
  { opType := ("crawl"), status := ("running"), percentage := 45,
    step := ("Fetching pages"), logs := [], errMsg := none,
    lastLog := none, meta := [] }

/-- The same operation after a percentage update. -/
def c6OpLater : Operation :=
  { c6Op with percentage := 60 }

/-- The `isinstance(x, list)` discriminator on embedded Python values. -/
def PyValue.isList : PyValue → Bool
  | .pyList _ => true
  | _ => false

/-- A dict-shaped store value whose `value` entry holds a JSON list, the
embedded form of `{"value": "[1, 2]"}`. -/
def c10DictRaw : PyValue :=
  .pyDict [(("value"), PyValue.pyStr ("[1, 2]"))]

/-- A parse oracle behaving like `json.loads` on the inputs the C10
theorems use: the text "[1, 2]" parses to the two-element list, every
other string fails to parse. -/
def c10Parse : String → Option PyValue :=
  fun s =>
    if s == "[1, 2]" then some (.pyList [.pyInt 1, .pyInt 2]) else none

/-- Claim C1: in `OpenAIErrorAdapter.parse_error`, the markers are checked
in priority order — a message with the authentication marker classifies as
AuthenticationError no matter what other markers co-occur; without it, a
quota marker wins; without either, a rate-limit marker wins; otherwise the
result is the generic API error wrapping the original message. -/
theorem claim_c1_classification_priority (s : List Char) :
    (openaiAuthCond s = true → isAuthError (openaiParseError s) = true)
    ∧ (openaiAuthCond s = false → openaiQuotaCond s = true →
        isQuotaError (openaiParseError s) = true)
    ∧ (openaiAuthCond s = false → openaiQuotaCond s = false →
        openaiRateCond s = true → isRateError (openaiParseError s) = true)
    ∧ (openaiAuthCond s = false → openaiQuotaCond s = false →
        openaiRateCond s = false →
        openaiParseError s = .apiError ((("OpenAI API error: ").data) ++ s)) := by
  refine ⟨?_, ?_, ?_, ?_⟩
  · intro h
    simp [openaiParseError, h, isAuthError]
  · intro h1 h2
    simp [openaiParseError, h1, h2, isQuotaError]
  · intro h1 h2 h3
    simp [openaiParseError, h1, h2, h3, isRateError]
  · intro h1 h2 h3
    simp [openaiParseError, h1, h2, h3]

/-- Claim C1 witness: `401 invalid api key quota exceeded` carries both the
authentication marker and the quota marker, and classifies as an
authentication error. -/
theorem claim_c1_witness :
    openaiAuthCond authQuotaMsg = true
    ∧ openaiQuotaCond authQuotaMsg = true
    ∧ isAuthError (openaiParseError authQuotaMsg) = true :=
  ⟨by decide, by decide,
   (claim_c1_classification_priority authQuotaMsg).1 (by decide)⟩

/-- Claim C2: whenever the message that remains after all of the OpenAI
adapter's redaction passes still contains a denylisted sensitive word
(`internal`, `server`, `token`, or `endpoint` with no URL redaction
present), `sanitize_error_message` returns exactly the fixed generic
fallback, never the partially redacted text. -/
theorem claim_c2_sensitive_word_fallback (s : List Char)
    (h : hasSensitive (openaiRedact s) = true) :
    openaiSanitize s = openaiFallback := by
  unfold openaiSanitize
  split
  · rfl
  · split
    · rfl
    · simp [h]

/-- Claim C2 witness: `internal endpoint failure` contains `internal` and
`endpoint` and no URL; sanitization returns exactly the fallback. -/
theorem claim_c2_witness :
    hasSensitive (openaiRedact internalEndpointMsg) = true
    ∧ openaiSanitize internalEndpointMsg = openaiFallback :=
  ⟨by decide, claim_c2_sensitive_word_fallback internalEndpointMsg (by decide)⟩

/-- Claim C3 counterexample: `cexMsg` contains the valid-length key
`cexKey` (`sk-` + 48 characters) as a whitespace-delimited token, yet the
sanitized output still contains that key verbatim — the same key is also
embedded inside the larger token `Xsk-…`, which the token-level redaction
does not touch and no regex pass matches. -/
theorem claim_c3_counterexample :
    (pySplit cexMsg).contains cexKey = true
    ∧ strContains (openaiSanitize cexMsg) cexKey = true := by
  constructor
  · decide
  · decide

/-- Claim C3 (amended): the token-level pass replaces every
whitespace-delimited token matching the key signature, so no token it
produces starts with `sk-` and has length 51; and a message untouched by
every redaction pass and free of denylisted words is returned unchanged.
The original universal claim fails when the key is embedded inside a
larger token (see the counterexample). -/
theorem claim_c3_amended :
    (∀ s : List Char, ∀ w ∈ (pySplit s).map openaiRedactWord,
      ¬((("sk-").data).isPrefixOf w = true ∧ w.length = 51))
    ∧ (∀ s : List Char, s.all pyIsSpace = false → s.length ≤ 2000 →
        openaiRedact s = s → hasSensitive s = false →
        openaiSanitize s = s) := by
  constructor
  · intro s w hw hcontra
    obtain ⟨v, _, rfl⟩ := List.mem_map.mp hw
    unfold openaiRedactWord at hcontra
    by_cases hc : ((("sk-").data).isPrefixOf v && v.length == 51) = true
    · rw [if_pos hc] at hcontra
      exact absurd hcontra.2 (by decide)
    · rw [if_neg hc] at hcontra
      exact hc (by simp [hcontra.1, hcontra.2])
  · intro s h1 h2 h3 h4
    unfold openaiSanitize
    rw [h1, if_neg (by simp), if_neg (by omega), h3, h4, if_neg (by simp)]

/-- Claim C3 amended witness: the mapped token list of the counterexample
message contains only non-key tokens, and the benign model-name message is
returned unchanged. -/
theorem claim_c3_amended_witness :
    ¬((("sk-").data).isPrefixOf (("[REDACTED_KEY]").data) = true
        ∧ (("[REDACTED_KEY]").data).length = 51)
    ∧ openaiSanitize benignMsg = benignMsg :=
  ⟨claim_c3_amended.1 cexMsg (("[REDACTED_KEY]").data) (by decide),
   claim_c3_amended.2 benignMsg (by decide) (by decide) (by decide) (by decide)⟩

/-- The localhost matcher fails on anything starting with `a`. -/
theorem matchLocalhost_a_cons (t : List Char) : matchLocalhost ('a' :: t) = none :=
  rfl

/-- The path matcher fails on anything starting with `a`. -/
theorem matchPath_a_cons (t : List Char) : matchPath ('a' :: t) = none :=
  rfl

/-- A substitution pass whose matcher fails on every `a`-headed suffix
leaves a string of `a` characters unchanged. -/
theorem applySubAux_skip (m : List Char → Option (List Char × List Char))
    (hm : ∀ t : List Char, m ('a' :: t) = none) :
    ∀ (fuel : Nat) (cs : List Char), (∀ c ∈ cs, c = 'a') →
      applySubAux m fuel cs = cs := by
  intro fuel
  induction fuel with
  | zero => intro cs _; rfl
  | succ n ih =>
    intro cs h
    cases cs with
    | nil => rfl
    | cons c t =>
      have hc : c = 'a' := h c (List.mem_cons_self c t)
      subst hc
      simp only [applySubAux, hm t]
      rw [ih t (fun x hx => h x (List.mem_cons_of_mem _ hx))]

/-- The Ollama sanitizer returns the 2001-character message unchanged. -/
theorem ollamaSanitize_longMsg : ollamaSanitize longOllamaMsg = longOllamaMsg := by
  have hall : ∀ c ∈ longOllamaMsg, c = 'a' := fun _ hc => List.eq_of_mem_replicate hc
  have h1 : longOllamaMsg.all pyIsSpace = false := by
    refine Bool.eq_false_iff.mpr fun habs => ?_
    have hmem : 'a' ∈ longOllamaMsg :=
      List.mem_replicate.mpr ⟨by norm_num, rfl⟩
    exact absurd (List.all_eq_true.mp habs 'a' hmem) (by decide)
  unfold ollamaSanitize
  rw [h1]
  simp only [Bool.false_eq_true, if_false]
  unfold applySub
  rw [applySubAux_skip matchLocalhost matchLocalhost_a_cons _ _ hall]
  rw [applySubAux_skip matchPath matchPath_a_cons _ _ hall]

/-- Claim C4 counterexample: a 2001-character message is over the claimed
2000-character limit, yet `OllamaErrorAdapter.sanitize_error_message` does
not return its fixed fallback — it has no length guard and returns the
message (here unchanged, since no local URL or path pattern matches). -/
theorem claim_c4_counterexample :
    2000 < longOllamaMsg.length
    ∧ ollamaSanitize longOllamaMsg ≠ ollamaFallback := by
  have hlen : longOllamaMsg.length = 2001 := List.length_replicate 2001 'a'
  constructor
  · omega
  · intro habs
    rw [ollamaSanitize_longMsg] at habs
    have hcon := congrArg List.length habs
    rw [hlen] at hcon
    exact absurd hcon (by decide)

/-- Claim C4 (amended): the OpenAI, Google and Anthropic adapters return
their fixed generic fallback on empty or whitespace-only input and on
input over 2000 characters; the Ollama adapter returns its fallback on
empty or whitespace-only input only, having no length guard.  (Non-string
input is outside the typed embedding.) -/
theorem claim_c4_invalid_input_fallback (s : List Char) :
    (s.all pyIsSpace = true ∨ 2000 < s.length →
      openaiSanitize s = openaiFallback
      ∧ googleSanitize s = googleFallback
      ∧ anthropicSanitize s = anthropicFallback)
    ∧ (s.all pyIsSpace = true → ollamaSanitize s = ollamaFallback) := by
  constructor
  · intro h
    refine ⟨?_, ?_, ?_⟩
    · unfold openaiSanitize
      rcases h with h | h <;> simp [h]
    · unfold googleSanitize
      rcases h with h | h <;> simp [h]
    · unfold anthropicSanitize
      rcases h with h | h <;> simp [h]
  · intro h
    unfold ollamaSanitize
    simp [h]

/-- Claim C4 witness: on a whitespace-only message all four adapters
return their fixed fallbacks. -/
theorem claim_c4_witness :
    (openaiSanitize (("   ").data) = openaiFallback
      ∧ googleSanitize (("   ").data) = googleFallback
      ∧ anthropicSanitize (("   ").data) = anthropicFallback)
    ∧ ollamaSanitize (("   ").data) = ollamaFallback :=
  ⟨(claim_c4_invalid_input_fallback (("   ").data)).1 (Or.inl (by decide)),
   (claim_c4_invalid_input_fallback (("   ").data)).2 (by decide)⟩

/-- Claim C5: the HTTP error mapper sends every QuotaExhaustedError to
status 429 with `error_type="quota_exhausted"` and the carried
`tokens_used` value preserved, and every RateLimitError without a
provider-supplied retry hint to status 429 with `error_type="rate_limit"`
and `retry_after=30`. -/
theorem claim_c5_http_mapping :
    (∀ (m : List Char) (t : Option Nat),
      (mapProviderError (.quotaExhaustedError m t)).status = 429
      ∧ (mapProviderError (.quotaExhaustedError m t)).errorType
          = ("quota_exhausted").data
      ∧ (mapProviderError (.quotaExhaustedError m t)).tokensUsed = t)
    ∧ (∀ m : List Char,
      (mapProviderError (.rateLimitError m none)).status = 429
      ∧ (mapProviderError (.rateLimitError m none)).errorType
          = ("rate_limit").data
      ∧ (mapProviderError (.rateLimitError m none)).retryAfter = some 30) :=
  ⟨fun _ _ => ⟨rfl, rfl, rfl⟩, fun _ => ⟨rfl, rfl, rfl⟩⟩

/-- Claim C6: polling an unchanged record with its own fingerprint yields
304 with no body (the fingerprint is a deterministic function of the body
without the timestamp, so two polls over the same record agree); and any
change to percentage, status or step changes the fingerprint, so a stale
`If-None-Match` yields 200 with the new body, not 304. -/
theorem claim_c6_etag_semantics (id : String) (op op2 : Operation) :
    (getProgress id (some op) (some (generateEtag id op)) = .notModified)
    ∧ (op2.percentage ≠ op.percentage ∨ op2.status ≠ op.status
        ∨ op2.step ≠ op.step →
      generateEtag id op2 ≠ generateEtag id op
      ∧ getProgress id (some op2) (some (generateEtag id op)) =
          .ok (buildProgressBody id op2) (generateEtag id op2)
            (if op2.status == "running" then ("1000") else ("0"))) := by
  constructor
  · simp [getProgress, checkEtag, generateEtag]
  · intro h
    have hne : buildProgressBody id op2 ≠ buildProgressBody id op := by
      intro he
      rcases h with h | h | h
      · exact h (congrArg ProgressBody.percentage he)
      · exact h (congrArg ProgressBody.status he)
      · exact h (congrArg ProgressBody.message he)
    refine ⟨hne, ?_⟩
    have hf : ((generateEtag id op) == (buildProgressBody id op2)) = false :=
      beq_eq_false_iff_ne.mpr (fun he => hne he.symm)
    simp only [getProgress, checkEtag, hf, Bool.false_eq_true, if_false]

/-- Claim C6 witness: a running operation polled with its own fingerprint
yields 304; after a percentage change its old fingerprint is stale and the
poll yields 200 with the new body and the running poll hint. -/
theorem claim_c6_witness :
    getProgress ("op-6") (some c6Op) (some (generateEtag ("op-6") c6Op))
      = .notModified
    ∧ generateEtag ("op-6") c6OpLater ≠ generateEtag ("op-6") c6Op
    ∧ getProgress ("op-6") (some c6OpLater) (some (generateEtag ("op-6") c6Op))
      = .ok (buildProgressBody ("op-6") c6OpLater)
          (generateEtag ("op-6") c6OpLater) ("1000") :=
  ⟨(claim_c6_etag_semantics ("op-6") c6Op c6OpLater).1,
   ((claim_c6_etag_semantics ("op-6") c6Op c6OpLater).2 (Or.inl (by decide))).1,
   ((claim_c6_etag_semantics ("op-6") c6Op c6OpLater).2 (Or.inl (by decide))).2⟩

/-- Claim C7: `update(id, partialFields)` on an id missing from the
registry leaves the registry exactly unchanged — no record is created and
no error is raised (the embedding is a total function). -/
theorem claim_c7_unknown_update_noop (reg : Registry) (id : String)
    (u : OpUpdate) (h : regGet reg id = none) :
    updateOp reg id u = reg := by
  unfold updateOp
  rw [h]

/-- Claim C7 witness: updating a missing id on the empty registry returns
the empty registry. -/
theorem claim_c7_witness :
    updateOp [] ("missing-id") { status := some ("running") } = [] :=
  claim_c7_unknown_update_noop [] ("missing-id")
    { status := some ("running") } rfl

/-- Every `capLogs` result has at most 50 entries. -/
theorem capLogs_length_le (ls : List String) : (capLogs ls).length ≤ 50 := by
  unfold capLogs
  split
  · rw [List.length_drop]
    omega
  · omega

/-- A field merge keeps the log bound. -/
theorem applyUpdate_logs_le (op : Operation) (u : OpUpdate)
    (h : op.logs.length ≤ 50) : (applyUpdate op u).logs.length ≤ 50 := by
  unfold applyUpdate
  rcases hu : u.log with _ | l <;> simp [hu, capLogs_length_le, h]

/-- The update path preserves the log bound. -/
theorem logsBounded_updateOp (reg : Registry) (id : String) (u : OpUpdate)
    (h : logsBounded reg) : logsBounded (updateOp reg id u) := by
  unfold updateOp
  split
  · exact h
  · intro p hp
    obtain ⟨q, hq, rfl⟩ := List.mem_map.mp hp
    by_cases hq1 : (q.1 == id) = true
    · rw [if_pos hq1]
      exact applyUpdate_logs_le q.2 u (h q hq)
    · rw [if_neg hq1]
      exact h q hq

/-- The start path preserves the log bound: the fresh record is seeded
with a single log line. -/
theorem logsBounded_startOp (reg : Registry) (id ty : String)
    (meta : List (String × String)) (h : logsBounded reg) :
    logsBounded (startOp reg id ty meta) := by
  intro p hp
  unfold startOp at hp
  rcases List.mem_cons.mp hp with rfl | hp2
  · simp
  · exact h p (List.mem_of_mem_filter hp2)

/-- The error path preserves the log bound: it does not touch `logs`. -/
theorem logsBounded_errorOp (reg : Registry) (id msg : String)
    (h : logsBounded reg) : logsBounded (errorOp reg id msg) := by
  unfold errorOp
  split
  · exact h
  · intro p hp
    obtain ⟨q, hq, rfl⟩ := List.mem_map.mp hp
    by_cases hq1 : (q.1 == id) = true
    · rw [if_pos hq1]
      exact h q hq
    · rw [if_neg hq1]
      exact h q hq

/-- Every tracker action preserves the log bound. -/
theorem logsBounded_applyAction (reg : Registry) (a : TrackerAction)
    (h : logsBounded reg) : logsBounded (applyAction reg a) := by
  cases a with
  | start id ty meta => exact logsBounded_startOp reg id ty meta h
  | update id u => exact logsBounded_updateOp reg id u h
  | complete id meta => exact logsBounded_updateOp reg id _ h
  | error id msg => exact logsBounded_errorOp reg id msg h

/-- Every tracker history preserves the log bound. -/
theorem logsBounded_applyActions (reg : Registry) (acts : List TrackerAction)
    (h : logsBounded reg) : logsBounded (applyActions reg acts) := by
  induction acts generalizing reg with
  | nil => exact h
  | cons a t ih => exact ih (applyAction reg a) (logsBounded_applyAction reg a h)

section
set_option maxRecDepth 4000

/-- Claim C8: under any sequence of tracker operations no record's logs
exceed 50 entries; and in the concrete scenario — a start (seeding one log
line) followed by sixty log-bearing updates numbered 0 to 59 — the final
logs have length exactly 50, entry 59 is last, entry 10 is first, and
entry 9 has been evicted. -/
theorem claim_c8_log_cap :
    (∀ (reg : Registry) (acts : List TrackerAction),
      logsBounded reg → logsBounded (applyActions reg acts))
    ∧ (regGet c8FinalReg ("op-1")).map (fun op => op.logs.length) = some 50
    ∧ (regGet c8FinalReg ("op-1")).bind (fun op => op.logs.head?)
        = some ("Log entry 10")
    ∧ (regGet c8FinalReg ("op-1")).bind (fun op => op.logs.getLast?)
        = some ("Log entry 59")
    ∧ (regGet c8FinalReg ("op-1")).map (fun op => op.logs.contains ("Log entry 9"))
        = some false := by
  refine ⟨fun reg acts h => logsBounded_applyActions reg acts h, ?_, ?_, ?_, ?_⟩
  · decide
  · decide
  · decide
  · decide

end

/-- Claim C8 witness: the scenario history applied to the empty registry
satisfies the bound. -/
theorem claim_c8_witness : logsBounded (applyActions [] c8Actions) :=
  claim_c8_log_cap.1 [] c8Actions (by simp [logsBounded])

/-- Claim C9: in the body built by `get_progress`, the `error` field
carries the record's error string exactly when the record's status is
`failed`, and is `none` for every other status — including `error`, the
status the tracker's failure path sets. -/
theorem claim_c9_error_only_when_failed (id : String) (op : Operation) :
    (op.status = "failed" → (buildProgressBody id op).errMsg = op.errMsg)
    ∧ (op.status ≠ "failed" → (buildProgressBody id op).errMsg = none) := by
  constructor
  · intro h
    simp [buildProgressBody, h]
  · intro h
    simp [buildProgressBody, h]

/-- Claim C9 witness: the record produced by the tracker's error path has
status `error` and a non-empty error message, yet the response body's
error field is `none`. -/
theorem claim_c9_witness :
    regGet c9Reg ("op-9") = some c9Op
    ∧ c9Op.status = ("error")
    ∧ c9Op.errMsg = some ("boom")
    ∧ (buildProgressBody ("op-9") c9Op).errMsg = none :=
  ⟨by decide, rfl, rfl,
   (claim_c9_error_only_when_failed ("op-9") c9Op).2 (by decide)⟩

/-- Claim C10 counterexample: the dict-shaped store value
`{"value": "[1, 2]"}` is not a list, yet `_get_file_list_from_db` returns
the list parsed from its `value` entry (file_discovery.py lines 56-61),
not the hardcoded fallback for the key — refuting "a value that is not a
list yields the fallback" as universally stated. -/
theorem claim_c10_counterexample :
    c10DictRaw.isList = false
    ∧ getFileListFromDb c10Parse (some c10DictRaw) ("CRAWL_DISCOVERY_LLM_FILES")
        = [PyValue.pyInt 1, PyValue.pyInt 2]
    ∧ getFileListFromDb c10Parse (some c10DictRaw) ("CRAWL_DISCOVERY_LLM_FILES")
        ≠ fallbackValues ("CRAWL_DISCOVERY_LLM_FILES") := by
  refine ⟨rfl, rfl, ?_⟩
  intro h
  have h1 : (some (PyValue.pyInt 1) : Option PyValue)
      = some (PyValue.pyStr ("llms-full.txt")) := congrArg List.head? h
  exact PyValue.noConfusion (Option.some.inj h1)

/-- Claim C10 (amended): `_get_file_list_from_db` returns the hardcoded
fallback list for the key (empty for keys outside the table) when the
store has no value; when a stored string, or the string under a stored
dict's `value` key, fails to parse as JSON; when a stored dict's `value`
entry is not a string (the `TypeError` path); when a stored dict has no
`value` key, or the stored string parses to a non-list, or the raw value
is of any other non-list shape.  A list parsed from a stored string or
from a dict's `value` entry is returned as is — so a non-list raw dict
does not always fall back (see the counterexample).  The embedding is a
total function, so no input raises. -/
theorem claim_c10_discovery_fallback (parse : String → Option PyValue)
    (key : String) :
    (getFileListFromDb parse none key = fallbackValues key)
    ∧ (∀ s : String, parse s = none →
        getFileListFromDb parse (some (PyValue.pyStr s)) key = fallbackValues key)
    ∧ (∀ (s : String) (v : PyValue), parse s = some v →
        (∀ xs, v ≠ PyValue.pyList xs) →
        getFileListFromDb parse (some (PyValue.pyStr s)) key = fallbackValues key)
    ∧ (∀ n : Int, getFileListFromDb parse (some (PyValue.pyInt n)) key
        = fallbackValues key)
    ∧ (∀ b : Bool, getFileListFromDb parse (some (PyValue.pyBool b)) key
        = fallbackValues key)
    ∧ (getFileListFromDb parse (some PyValue.pyNone) key = fallbackValues key)
    ∧ (∀ (s : String) (xs : List PyValue), parse s = some (PyValue.pyList xs) →
        getFileListFromDb parse (some (PyValue.pyStr s)) key = xs)
    ∧ (∀ kvs : List (String × PyValue), dictLookup kvs ("value") = none →
        getFileListFromDb parse (some (PyValue.pyDict kvs)) key = fallbackValues key)
    ∧ (∀ (kvs : List (String × PyValue)) (v : PyValue),
        dictLookup kvs ("value") = some v → (∀ s, v ≠ PyValue.pyStr s) →
        getFileListFromDb parse (some (PyValue.pyDict kvs)) key = fallbackValues key)
    ∧ (∀ (kvs : List (String × PyValue)) (s : String),
        dictLookup kvs ("value") = some (PyValue.pyStr s) → parse s = none →
        getFileListFromDb parse (some (PyValue.pyDict kvs)) key = fallbackValues key)
    ∧ (∀ (kvs : List (String × PyValue)) (s : String) (v : PyValue),
        dictLookup kvs ("value") = some (PyValue.pyStr s) → parse s = some v →
        (∀ xs, v ≠ PyValue.pyList xs) →
        getFileListFromDb parse (some (PyValue.pyDict kvs)) key = fallbackValues key)
    ∧ (∀ (kvs : List (String × PyValue)) (s : String) (xs : List PyValue),
        dictLookup kvs ("value") = some (PyValue.pyStr s) →
        parse s = some (PyValue.pyList xs) →
        getFileListFromDb parse (some (PyValue.pyDict kvs)) key = xs)
    ∧ (key ≠ "CRAWL_DISCOVERY_LLM_FILES" → key ≠ "CRAWL_DISCOVERY_SITEMAP_FILES" →
        key ≠ "CRAWL_DISCOVERY_METADATA_FILES" → fallbackValues key = []) := by
  refine ⟨rfl, ?_, ?_, fun _ => rfl, fun _ => rfl, rfl, ?_, ?_, ?_, ?_, ?_, ?_, ?_⟩
  · intro s hs
    simp [getFileListFromDb, hs]
  · intro s v hs hv
    cases v with
    | pyList xs => exact absurd rfl (hv xs)
    | pyStr s2 => simp [getFileListFromDb, hs]
    | pyDict kvs => simp [getFileListFromDb, hs]
    | pyInt n => simp [getFileListFromDb, hs]
    | pyBool b => simp [getFileListFromDb, hs]
    | pyNone => simp [getFileListFromDb, hs]
  · intro s xs hs
    simp [getFileListFromDb, hs]
  · intro kvs h
    simp [getFileListFromDb, h]
  · intro kvs v h hv
    cases v with
    | pyStr s => exact absurd rfl (hv s)
    | pyList xs => simp [getFileListFromDb, h]
    | pyDict kvs2 => simp [getFileListFromDb, h]
    | pyInt n => simp [getFileListFromDb, h]
    | pyBool b => simp [getFileListFromDb, h]
    | pyNone => simp [getFileListFromDb, h]
  · intro kvs s h1 h2
    simp [getFileListFromDb, h1, h2]
  · intro kvs s v h1 h2 hv
    cases v with
    | pyList xs => exact absurd rfl (hv xs)
    | pyStr s2 => simp [getFileListFromDb, h1, h2]
    | pyDict kvs2 => simp [getFileListFromDb, h1, h2]
    | pyInt n => simp [getFileListFromDb, h1, h2]
    | pyBool b => simp [getFileListFromDb, h1, h2]
    | pyNone => simp [getFileListFromDb, h1, h2]
  · intro kvs s xs h1 h2
    simp [getFileListFromDb, h1, h2]
  · intro h1 h2 h3
    simp [fallbackValues, fallbackFor, h1, h2, h3]

/-- Claim C10 witness: a store value that is not valid JSON falls back to
the LLM key's hardcoded list, and a dict store value with no `value` key
falls back to the sitemap key's hardcoded list. -/
theorem claim_c10_witness :
    getFileListFromDb (fun _ => none) (some (PyValue.pyStr ("not json")))
      ("CRAWL_DISCOVERY_LLM_FILES")
    = [PyValue.pyStr ("llms-full.txt"), PyValue.pyStr ("llms-ctx.txt"),
       PyValue.pyStr ("llms.md"), PyValue.pyStr ("llms.txt")]
    ∧ getFileListFromDb (fun _ => none) (some (PyValue.pyDict []))
      ("CRAWL_DISCOVERY_SITEMAP_FILES")
    = [PyValue.pyStr ("sitemap.xml"), PyValue.pyStr ("sitemap_index.xml"),
       PyValue.pyStr ("sitemap-*.xml")] :=
  ⟨((claim_c10_discovery_fallback (fun _ => none)
      ("CRAWL_DISCOVERY_LLM_FILES")).2.1 ("not json") rfl).trans rfl,
   ((claim_c10_discovery_fallback (fun _ => none)
      ("CRAWL_DISCOVERY_SITEMAP_FILES")).2.2.2.2.2.2.2.1 [] rfl).trans rfl⟩
